import Mathlib

/-!
Verification of the Bezi bridge automation logic (`src/bezi_bridge.py`).

The development embeds the program at two levels.

* Image level: `images_match` and `get_button_state` are translated directly
  from the numpy/PIL code.  A captured or reference image is its numpy shape
  together with the flattened channel values; the similarity fraction is an
  exact rational.

* Protocol level: `send_prompt` and `run` are embedded as trace-producing
  functions over an environment `Env` that supplies the outcomes of the
  UI-automation calls (classifier readings, control lookups, harvested
  texts).  The `while` loops are fuel-indexed: exhausting fuel models a loop
  that is still running, i.e. an execution that has not terminated yet.
-/

namespace BeziBridge

/-- A numpy array as obtained from a PIL RGB image by `np.array`: its shape
and its flattened channel values (an `h x w` RGB image has shape `[h, w, 3]`
and `h*w*3` entries). -/
structure Image where
  shape : List Nat
  data : List Nat
deriving DecidableEq

/-- An image as actually produced by `np.array` on a PIL image: the data has
exactly as many entries as the shape prescribes, and there is at least one
pixel (captures and reference icons are 56x56 RGB). -/
def WellFormed (img : Image) : Prop :=
  img.data.length = img.shape.prod ∧ 0 < img.data.length

/-- Number of positions at which the two flattened arrays agree: the count of
`True` entries of the elementwise comparison `i1 == i2`. -/
def matchCount (l1 l2 : List Nat) : Nat :=
  (l1.zip l2).countP fun p => p.1 == p.2

/-- `BeziBridge.images_match` (src/bezi_bridge.py, lines 242-250; default
threshold 0.95, the classifier passes 0.90).  A shape mismatch returns
`False`; otherwise the result is `np.mean(i1 == i2) > threshold`, the mean
being the count of equal entries over the number of entries, written with
`mkRat` (equal to the division `matchCount / length`, see
`Rat.mkRat_eq_div`) so that the definition evaluates inside the kernel.
For an empty array `np.mean` is NaN and `NaN > threshold` is `False` in
Python; the zero-length branch models exactly that.  The bare `except`
branch of the source (returning `False`) has nothing to catch in this
embedding, where no operation raises. -/
def images_match (img1 img2 : Image) (threshold : ℚ) : Bool :=
  if img1.shape ≠ img2.shape then false
  else if img1.data.length = 0 then false
  else decide (mkRat (matchCount img1.data img2.data) (img1.data.length) > threshold)

/-- The four outcomes of the state classifier (the strings `"BUSY"`,
`"INACTIVE"`, `"READY"`, `"UNKNOWN"` returned by `get_button_state`). -/
inductive BState
  | BUSY
  | INACTIVE
  | READY
  | UNKNOWN
deriving DecidableEq

/-- The three reference fingerprints loaded in `__init__` (lines 80-82):
`ref_ready.png`, `ref_ready_active.png`, `ref_busy.png`. -/
structure RefIcons where
  ready_icon_inactive : Image
  ready_icon_active : Image
  ready_icon_busy : Image
deriving DecidableEq

/-- `BeziBridge.get_button_state` (lines 231-240): test the capture against
BUSY, then INACTIVE, then READY, each at threshold 0.90, and return the
first matching state; if none match, return UNKNOWN. -/
def get_button_state (refs : RefIcons) (current_img : Image) : BState :=
  if images_match refs.ready_icon_busy current_img (mkRat 9 10) then BState.BUSY
  else if images_match refs.ready_icon_inactive current_img (mkRat 9 10) then BState.INACTIVE
  else if images_match refs.ready_icon_active current_img (mkRat 9 10) then BState.READY
  else BState.UNKNOWN

/-- The reference-icon attributes of a `BeziBridge` object after `__init__`
(lines 79-84): `some` when all three `Image.open` calls succeeded, `none`
when loading raised — the `except` block only prints the error, and the
three `ready_icon_*` attributes are then never assigned (in every failure
case `ready_icon_busy`, assigned last, is left unbound). -/
def initIcons (loadOk : Bool) (icons : RefIcons) : Option RefIcons :=
  if loadOk then some icons else none

/-- What a call to `get_button_state` does at runtime including the attribute
lookups: when the reference icons were never assigned (a load failure in
`__init__`), evaluating `self.ready_icon_busy` on line 234 raises
`AttributeError` in `get_button_state` itself, before `images_match` (and its
`except` clause) is ever entered. -/
def get_button_state_checked (icons : Option RefIcons) (current_img : Image) :
    Except String BState :=
  match icons with
  | some refs => Except.ok (get_button_state refs current_img)
  | none => Except.error "AttributeError"

/-! ## Protocol level

`send_prompt` and `run` are embedded as functions producing the ordered list
of UI/OS events they perform, together with their outcome.  The outcomes of
the external UI-automation calls are supplied by an environment `Env`. -/

/-- Observable UI / OS events of a run, in program order. -/
inductive Event
  | findWindows
  | findButton (found : Bool)
  | poll (s : BState)
  | printErr (m : String)
  | clickButton (title : String)
  | sleep (secs : Nat)
  | setFocus
  | typeKeys (keys : String)
  | editLookup (found : Bool)
  | setText (m : String)
  | harvest
  | setKeepAwake (b : Bool)
  | loadConfig
  | parseArgs
  | saveConfig
deriving DecidableEq

/-- The environment: outcomes of the external UI-automation calls.
`states k` is the classification the `k`-th `get_bezi_state` call would
read (when the submit button is found), `buttonFound k` whether the
56x56-geometry lookup of that call succeeds, `editBoxFound` whether the
`descendants(control_type="Edit")[-1]` lookup in the try-block of
`send_prompt` succeeds, and `harvest` the texts of the `Text` descendants
enumerated at the end. -/
structure Env where
  states : Nat → BState
  buttonFound : Nat → Bool
  editBoxFound : Bool
  harvest : List String

/-- A Python value as returned by `send_prompt` / `run`: a string, a bool
(`send_prompt` returns `False` on a submission failure), or the harvested
list of strings. -/
inductive PyVal
  | str (s : String)
  | bool (b : Bool)
  | strList (l : List String)
deriving DecidableEq

/-- `BeziBridge.close_dialogs` (lines 176-181): click "Continue", refresh
the window, click "Keep All", refresh the window.  A missing button is
swallowed by `click_button_by_name`; the event records the attempt. -/
def close_dialogs : List Event :=
  [Event.clickButton "Continue", Event.findWindows,
   Event.clickButton "Keep All", Event.findWindows]

/-- `BeziBridge.get_bezi_state` (lines 115-123) at the `k`-th call:
`find_windows()`, then the geometry-based submit-button lookup; if it fails
the function prints a diagnostic and calls `exit(1)` (modelled by returning
`none`), otherwise `get_button_state` yields the reading `env.states k`. -/
def get_bezi_state (env : Env) (k : Nat) : List Event × Option BState :=
  if env.buttonFound k then
    ([Event.findWindows, Event.findButton true, Event.poll (env.states k)],
     some (env.states k))
  else
    ([Event.findWindows, Event.findButton false,
      Event.printErr "unable to find submit button"], none)

/-- Result of one of the two `while "INACTIVE" != self.get_bezi_state()`
loops: the loop finished normally (carrying the index of the next
`get_bezi_state` call), the process exited via `exit(1)` inside
`get_bezi_state`, or the fuel ran out (the loop is still running). -/
inductive WaitRes
  | done (k : Nat)
  | exited (code : Nat)
  | outOfFuel
deriving DecidableEq

/-- The polling loop of `send_prompt` (lines 149-151 and 167-169): evaluate
`get_bezi_state`; stop when it reads exactly `INACTIVE`; otherwise
`close_dialogs()`, `time.sleep(1)` and poll again.  `fuel` bounds the number
of condition evaluations. -/
def wait_inactive (env : Env) : Nat → Nat → List Event × WaitRes
  | _, 0 => ([], WaitRes.outOfFuel)
  | k, fuel + 1 =>
    match get_bezi_state env k with
    | (evs, none) => (evs, WaitRes.exited 1)
    | (evs, some s) =>
      if s = BState.INACTIVE then (evs, WaitRes.done (k + 1))
      else
        let r := wait_inactive env (k + 1) fuel
        (evs ++ close_dialogs ++ [Event.sleep 1] ++ r.1, r.2)

/-- Outcome of `send_prompt`: a returned value (the harvested list, or
`False` after a submission failure), the `ValueError` raised on an empty
prompt, a process exit raised inside `get_bezi_state`, or fuel exhaustion
(a wait loop still running). -/
inductive SPRes
  | ret (v : PyVal)
  | valueError
  | exited (code : Nat)
  | outOfFuel
deriving DecidableEq

/-- `BeziBridge.send_prompt` (lines 143-174).  `if not message: raise
ValueError`; wait until the reading is `INACTIVE`; `close_dialogs()`; in the
try-block `find_windows()`, locate the last Edit descendant, `set_text`,
sleep, send Enter, sleep (on failure print a diagnostic and return `False`);
`find_windows()`; wait for `INACTIVE` again; `close_dialogs()`;
`find_windows()`; harvest the stripped texts of the `Text` descendants.
`fuel1`/`fuel2` bound the two wait loops. -/
def send_prompt (env : Env) (message : String) (fuel1 fuel2 : Nat) :
    List Event × SPRes :=
  if message = "" then ([], SPRes.valueError)
  else
    match wait_inactive env 0 fuel1 with
    | (tr1, WaitRes.outOfFuel) => (tr1, SPRes.outOfFuel)
    | (tr1, WaitRes.exited c) => (tr1, SPRes.exited c)
    | (tr1, WaitRes.done k) =>
      if env.editBoxFound then
        let inj := [Event.findWindows, Event.editLookup true,
                    Event.setText message, Event.sleep 1,
                    Event.typeKeys "{ENTER}", Event.sleep 2, Event.findWindows]
        match wait_inactive env k fuel2 with
        | (tr2, WaitRes.outOfFuel) =>
            (tr1 ++ close_dialogs ++ inj ++ tr2, SPRes.outOfFuel)
        | (tr2, WaitRes.exited c) =>
            (tr1 ++ close_dialogs ++ inj ++ tr2, SPRes.exited c)
        | (tr2, WaitRes.done _) =>
            (tr1 ++ close_dialogs ++ inj ++ tr2 ++ close_dialogs ++
               [Event.findWindows, Event.harvest],
             SPRes.ret (PyVal.strList (env.harvest.map String.trim)))
      else
        (tr1 ++ close_dialogs ++
           [Event.findWindows, Event.editLookup false,
            Event.printErr "unable to find prompt box"],
         SPRes.ret (PyVal.bool false))

/-- `BeziBridge.new_thread` (lines 134-141): focus the window, send the
Ctrl+T chord, sleep, refresh the window, dismiss dialogs. -/
def new_thread_events : List Event :=
  [Event.setFocus, Event.typeKeys "^T", Event.sleep 1, Event.findWindows] ++
    close_dialogs

/-- `BeziBridge.validate_arguments` (lines 194-208) returns `True` on both
of its branches; the `if not self.validate_arguments()` guard in `run` is
dead code in the source. -/
def validate_arguments : Bool := true

/-- Outcome of `run`: a returned `(success, value)` pair, the propagated
`ValueError` of an empty prompt, a process exit, or fuel exhaustion. -/
inductive RunRes
  | ret (success : Bool) (v : PyVal)
  | raisedValueError
  | exited (code : Nat)
  | outOfFuel
deriving DecidableEq

/-- `BeziBridge.run` (lines 252-267): `set_keep_awake(True)`; then inside
`try`: `load_config`, `parse_arguments`, `find_windows`,
`validate_arguments` guard, the init early-return (`save_config` then
`(True, "Initialization Complete")`), else `new_thread()` and
`send_prompt`; the `finally` block runs `set_keep_awake(False)` on every
terminating path, including the propagating `ValueError` and the
`SystemExit` of `exit(1)`.  On fuel exhaustion the program is still inside
a wait loop, so the `finally` block has not run yet. -/
def run (env : Env) (message : String) (init : Bool) (fuel1 fuel2 : Nat) :
    List Event × RunRes :=
  let pre := [Event.setKeepAwake true, Event.loadConfig, Event.parseArgs,
              Event.findWindows]
  if !validate_arguments then
    (pre ++ [Event.setKeepAwake false], RunRes.ret false (PyVal.str "Invalid Args"))
  else if init then
    (pre ++ [Event.saveConfig, Event.setKeepAwake false],
     RunRes.ret true (PyVal.str "Initialization Complete"))
  else
    match send_prompt env message fuel1 fuel2 with
    | (tr, SPRes.outOfFuel) => (pre ++ new_thread_events ++ tr, RunRes.outOfFuel)
    | (tr, SPRes.valueError) =>
        (pre ++ new_thread_events ++ tr ++ [Event.setKeepAwake false],
         RunRes.raisedValueError)
    | (tr, SPRes.exited c) =>
        (pre ++ new_thread_events ++ tr ++ [Event.setKeepAwake false],
         RunRes.exited c)
    | (tr, SPRes.ret v) =>
        (pre ++ new_thread_events ++ tr ++ [Event.setKeepAwake false],
         RunRes.ret true v)

/-- Exit status of the whole process, from the `__main__` block (lines
269-280): a returned pair exits 0 (`if success: print(result)` sets no exit
status), an uncaught exception makes the interpreter exit 1, `exit(code)`
exits with `code`; `none` when the program has not terminated. -/
def processExitCode : RunRes → Option Nat
  | RunRes.ret _ _ => some 0
  | RunRes.raisedValueError => some 1
  | RunRes.exited c => some c
  | RunRes.outOfFuel => none

/-- The values printed on stdout by the `__main__` block: `print(result)`
when `success` is true, nothing otherwise. -/
def mainStdout : RunRes → List PyVal
  | RunRes.ret true v => [v]
  | _ => []

/-! ## Trace predicates for the claims -/

/-- A text-injection event: setting the edit control's text, or sending the
Enter key. -/
def isInject : Event → Bool
  | Event.setText _ => true
  | Event.typeKeys k => k == "{ENTER}"
  | _ => false

/-- A classification-reading event. -/
def isPollEv : Event → Bool
  | Event.poll _ => true
  | _ => false

/-- An edit-control lookup attempt. -/
def isEditLookupEv : Event → Bool
  | Event.editLookup _ => true
  | _ => false

/-- A window-acquisition (`find_windows`) event. -/
def isFindWindows : Event → Bool
  | Event.findWindows => true
  | _ => false

/-- Update the most recent classification reading with one event. -/
def updLast (last : Option BState) : Event → Option BState
  | Event.poll s => some s
  | _ => last

/-- The most recent classification reading after a trace, starting from
`last`. -/
def lastPoll (tr : List Event) (last : Option BState) : Option BState :=
  tr.foldl updLast last

/-- `injectSafe tr last = true` iff every text-injection event of `tr`
happens while the most recent classification reading is exactly `INACTIVE`
(`last` being the reading before the trace starts; an injection with no
preceding reading at all is unsafe). -/
def injectSafe : List Event → Option BState → Bool
  | [], _ => true
  | e :: tr, last =>
    (!(isInject e) || decide (last = some BState.INACTIVE)) &&
      injectSafe tr (updLast last e)

/-! ## Concrete inputs for witnesses and counterexamples -/

/-- 1x1 RGB reference icons: busy red, inactive green, ready blue. -/
def refsW : RefIcons :=
  ⟨⟨[1,1,3],[0,255,0]⟩, ⟨[1,1,3],[0,0,255]⟩, ⟨[1,1,3],[255,0,0]⟩⟩

/-- Reference icons whose BUSY and INACTIVE fingerprints coincide. -/
def refsBoth : RefIcons :=
  ⟨⟨[1,1,3],[255,0,0]⟩, ⟨[1,1,3],[0,0,255]⟩, ⟨[1,1,3],[255,0,0]⟩⟩

/-- A capture equal to the busy (and, for `refsBoth`, also the inactive)
fingerprint. -/
def imgB : Image := ⟨[1,1,3],[255,0,0]⟩

/-- A capture equal to the inactive fingerprint of `refsW`. -/
def imgI : Image := ⟨[1,1,3],[0,255,0]⟩

/-- A capture equal to the ready fingerprint of `refsW`. -/
def imgR : Image := ⟨[1,1,3],[0,0,255]⟩

/-- A capture matching none of the fingerprints of `refsW`. -/
def imgU : Image := ⟨[1,1,3],[7,7,7]⟩

/-- A 2x1 RGB image, of a different shape than the 1x1 images above. -/
def imgWide : Image := ⟨[2,1,3],[255,0,0,255,0,0]⟩

/-- Environment whose classifier always reads INACTIVE and whose lookups all
succeed. -/
def envE : Env :=
  { states := fun _ => BState.INACTIVE
    buttonFound := fun _ => true
    editBoxFound := true
    harvest := [] }

/-- Environment whose edit-control lookup fails (everything else succeeds,
the classifier always reads INACTIVE). -/
def envF : Env :=
  { states := fun _ => BState.INACTIVE
    buttonFound := fun _ => true
    editBoxFound := false
    harvest := [] }

/-- Environment in which no control with the 56x56 geometry exists. -/
def envG : Env :=
  { states := fun _ => BState.INACTIVE
    buttonFound := fun _ => false
    editBoxFound := true
    harvest := [] }

/-! ## Helper lemmas -/

theorem matchCount_self (l : List Nat) : matchCount l l = l.length := by
  induction l with
  | nil => rfl
  | cons a l ih =>
    simp only [matchCount, List.zip_cons_cons, List.countP_cons, beq_self_eq_true,
      if_pos, List.length_cons] at ih ⊢
    omega

theorem mkRat_matchCount_self (l : List Nat) (h : l.length ≠ 0) :
    mkRat (matchCount l l) l.length = 1 := by
  rw [matchCount_self, Rat.mkRat_eq_div]
  push_cast
  exact div_self (Nat.cast_ne_zero.mpr h)

/-! ## Image-level claims -/

/-- Claim C5: for every pair of images whose shapes differ and every
threshold, `images_match` returns `false` (a definitive non-match, not an
error). -/
theorem c5_shape_mismatch (img1 img2 : Image) (t : ℚ)
    (h : img1.shape ≠ img2.shape) : images_match img1 img2 t = false := by
  unfold images_match
  rw [if_pos h]

/-- Witness for C5 at concrete inputs of differing shapes. -/
theorem c5_witness :
    imgB.shape ≠ imgWide.shape ∧
    images_match imgB imgWide (mkRat 19 20) = false :=
  ⟨by decide, c5_shape_mismatch imgB imgWide (mkRat 19 20) (by decide)⟩

/-- Claim C6: the fingerprint matcher is reflexive below threshold 1: for a
well-formed image and any threshold `t < 1`, `images_match img img t` is
true, because the fraction of equal pixels is exactly 1. -/
theorem c6_matcher_reflexive (img : Image) (t : ℚ) (hwf : WellFormed img)
    (ht : t < 1) : images_match img img t = true := by
  have hne : img.data.length ≠ 0 := Nat.pos_iff_ne_zero.mp hwf.2
  unfold images_match
  rw [if_neg (by simp), if_neg hne, mkRat_matchCount_self _ hne]
  exact decide_eq_true ht

/-- Witness for C6 at a concrete well-formed image and threshold 0.9. -/
theorem c6_witness :
    WellFormed imgB ∧ (mkRat 9 10 : ℚ) < 1 ∧
    images_match imgB imgB (mkRat 9 10) = true :=
  ⟨⟨by decide, by decide⟩, by decide,
   c6_matcher_reflexive imgB (mkRat 9 10) ⟨by decide, by decide⟩ (by decide)⟩

/-- Claim C10: the threshold comparison is strict: even an image compared
with itself fails at threshold 1, because the equal fraction (exactly 1)
does not strictly exceed 1. -/
theorem c10_threshold_strict (img : Image) : images_match img img 1 = false := by
  unfold images_match
  rw [if_neg (by simp)]
  by_cases h : img.data.length = 0
  · rw [if_pos h]
  · rw [if_neg h, mkRat_matchCount_self _ h]
    simp

/-- Claim C4: the classifier tests BUSY, then INACTIVE, then READY at
threshold 0.90 and returns the first match; a capture matching both BUSY and
INACTIVE is classified BUSY, and a capture matching none is UNKNOWN. -/
theorem c4_classifier_priority (refs : RefIcons) (img : Image) :
    (images_match refs.ready_icon_busy img (mkRat 9 10) = true →
       get_button_state refs img = BState.BUSY) ∧
    (images_match refs.ready_icon_busy img (mkRat 9 10) = true ∧
     images_match refs.ready_icon_inactive img (mkRat 9 10) = true →
       get_button_state refs img = BState.BUSY) ∧
    (images_match refs.ready_icon_busy img (mkRat 9 10) = false →
     images_match refs.ready_icon_inactive img (mkRat 9 10) = true →
       get_button_state refs img = BState.INACTIVE) ∧
    (images_match refs.ready_icon_busy img (mkRat 9 10) = false →
     images_match refs.ready_icon_inactive img (mkRat 9 10) = false →
     images_match refs.ready_icon_active img (mkRat 9 10) = true →
       get_button_state refs img = BState.READY) ∧
    (images_match refs.ready_icon_busy img (mkRat 9 10) = false →
     images_match refs.ready_icon_inactive img (mkRat 9 10) = false →
     images_match refs.ready_icon_active img (mkRat 9 10) = false →
       get_button_state refs img = BState.UNKNOWN) := by
  refine ⟨?_, ?_, ?_, ?_, ?_⟩ <;> intros <;> simp_all [get_button_state]

/-- Witness for C4: the four classifications at concrete captures, the BUSY
one through the both-BUSY-and-INACTIVE-match conjunct. -/
theorem c4_witness :
    get_button_state refsBoth imgB = BState.BUSY ∧
    get_button_state refsW imgI = BState.INACTIVE ∧
    get_button_state refsW imgR = BState.READY ∧
    get_button_state refsW imgU = BState.UNKNOWN :=
  ⟨(c4_classifier_priority refsBoth imgB).2.1 ⟨by decide, by decide⟩,
   (c4_classifier_priority refsW imgI).2.2.1 (by decide) (by decide),
   (c4_classifier_priority refsW imgR).2.2.2.1 (by decide) (by decide) (by decide),
   (c4_classifier_priority refsW imgU).2.2.2.2 (by decide) (by decide) (by decide)⟩

/-- Claim C7 (code behaviour at the failing input): when reference loading
failed in `__init__`, a classification call does not return UNKNOWN — it
raises `AttributeError`, because the `ready_icon_*` attributes were never
assigned.  This contradicts the claim that classification always produces an
answer. -/
theorem c7_missing_refs_raise (icons : RefIcons) (img : Image) :
    get_button_state_checked (initIcons false icons) img =
      Except.error "AttributeError" := rfl

/-! ## Trace helper lemmas -/

theorem lastPoll_append (a b : List Event) (l : Option BState) :
    lastPoll (a ++ b) l = lastPoll b (lastPoll a l) := by
  simp [lastPoll, List.foldl_append]

theorem injectSafe_append (a b : List Event) (l : Option BState) :
    injectSafe (a ++ b) l = (injectSafe a l && injectSafe b (lastPoll a l)) := by
  induction a generalizing l with
  | nil => simp [injectSafe, lastPoll]
  | cons e a ih =>
    simp only [List.cons_append, injectSafe, List.append_eq, ih, lastPoll,
      List.foldl_cons, Bool.and_assoc]

theorem injectSafe_of_append (a b : List Event) (l : Option BState)
    (ha : injectSafe a l = true) (hb : injectSafe b (lastPoll a l) = true) :
    injectSafe (a ++ b) l = true := by
  rw [injectSafe_append, ha, hb]
  rfl

theorem injectSafe_of_noInject (tr : List Event) (l : Option BState)
    (h : ∀ e ∈ tr, isInject e = false) : injectSafe tr l = true := by
  induction tr generalizing l with
  | nil => rfl
  | cons e tr ih =>
    have he : isInject e = false := h e (List.mem_cons_self e tr)
    rw [injectSafe, he]
    simp only [Bool.not_false, Bool.true_or, Bool.true_and]
    exact ih _ fun x hx => h x (List.mem_cons_of_mem e hx)

/-- Every event of a `wait_inactive` trace satisfies a predicate that holds
of window refreshes, button lookups, polls, diagnostics, dialog clicks and
sleeps. -/
theorem wait_inactive_all (env : Env) (p : Event → Bool)
    (h1 : p Event.findWindows = true)
    (h2 : ∀ b, p (Event.findButton b) = true)
    (h3 : ∀ s, p (Event.poll s) = true)
    (h4 : ∀ m, p (Event.printErr m) = true)
    (h5 : ∀ s, p (Event.clickButton s) = true)
    (h6 : ∀ n, p (Event.sleep n) = true) :
    ∀ fuel k, ∀ e ∈ (wait_inactive env k fuel).1, p e = true := by
  intro fuel
  induction fuel with
  | zero => intro k e he; simp [wait_inactive] at he
  | succ n ih =>
    intro k e he
    by_cases hb : env.buttonFound k
    · by_cases hs : env.states k = BState.INACTIVE
      · simp only [wait_inactive, get_bezi_state, hb, if_true, hs,
          List.mem_cons, List.not_mem_nil, or_false] at he
        rcases he with rfl | rfl | rfl
        · exact h1
        · exact h2 true
        · exact h3 _
      · simp only [wait_inactive, get_bezi_state, hb, if_true, hs, if_false,
          close_dialogs, List.append_assoc, List.cons_append, List.nil_append,
          List.mem_cons, List.mem_append] at he
        rcases he with rfl | rfl | rfl | rfl | rfl | rfl | rfl | rfl | hrec
        · exact h1
        · exact h2 true
        · exact h3 _
        · exact h5 _
        · exact h1
        · exact h5 _
        · exact h1
        · exact h6 _
        · exact ih (k + 1) e hrec
    · simp only [wait_inactive, get_bezi_state, hb, if_false, Bool.false_eq_true,
        List.mem_cons, List.not_mem_nil, or_false] at he
      rcases he with rfl | rfl | rfl
      · exact h1
      · exact h2 false
      · exact h4 _

theorem wait_inactive_noInject (env : Env) (fuel k : Nat) :
    ∀ e ∈ (wait_inactive env k fuel).1, isInject e = false := by
  intro e he
  have := wait_inactive_all env (fun e => !(isInject e))
    rfl (fun _ => rfl) (fun _ => rfl) (fun _ => rfl) (fun _ => rfl) (fun _ => rfl)
    fuel k e he
  simpa using this

theorem wait_inactive_noEditLookup (env : Env) (fuel k : Nat) :
    ∀ e ∈ (wait_inactive env k fuel).1, isEditLookupEv e = false := by
  intro e he
  have := wait_inactive_all env (fun e => !(isEditLookupEv e))
    rfl (fun _ => rfl) (fun _ => rfl) (fun _ => rfl) (fun _ => rfl) (fun _ => rfl)
    fuel k e he
  simpa using this

/-- When one of the polling loops exits normally, the last classification
reading recorded in its trace is exactly `INACTIVE`. -/
theorem wait_inactive_done_lastPoll (env : Env) :
    ∀ fuel k k', (wait_inactive env k fuel).2 = WaitRes.done k' →
      ∀ l, lastPoll (wait_inactive env k fuel).1 l = some BState.INACTIVE := by
  intro fuel
  induction fuel with
  | zero => intro k k' h; simp [wait_inactive] at h
  | succ n ih =>
    intro k k' h l
    by_cases hb : env.buttonFound k
    · by_cases hs : env.states k = BState.INACTIVE
      · simp [wait_inactive, get_bezi_state, hb, hs, lastPoll, updLast]
      · simp only [wait_inactive, get_bezi_state, hb, if_true, hs,
          if_false] at h ⊢
        rw [lastPoll_append, lastPoll_append, lastPoll_append]
        exact ih (k + 1) k' h _
    · simp [wait_inactive, get_bezi_state, hb] at h

theorem getLast_eq_of_append (l1 l2 : List Event) (a : Event)
    (h : l2.getLast? = some a) : (l1 ++ l2).getLast? = some a := by
  rw [List.getLast?_append, h]
  rfl

/-! ## Protocol-level claims -/

/-- Claim C1: in every execution of `send_prompt` — any environment, prompt
and number of loop iterations — no text-injection event (`set_text` or the
Enter key) occurs while the most recent classification reading is anything
other than `INACTIVE`; an injection with no preceding reading at all also
counts as unsafe. -/
theorem c1_injection_only_when_inactive (env : Env) (message : String)
    (fuel1 fuel2 : Nat) :
    injectSafe (send_prompt env message fuel1 fuel2).1 none = true := by
  by_cases hm : message = ""
  · simp [send_prompt, hm, injectSafe]
  · rcases hw : wait_inactive env 0 fuel1 with ⟨tr1, r1⟩
    have htr1 : ∀ e ∈ tr1, isInject e = false := by
      have h := wait_inactive_noInject env fuel1 0
      rwa [hw] at h
    cases r1 with
    | outOfFuel =>
      simp only [send_prompt, if_neg hm, hw]
      exact injectSafe_of_noInject _ _ htr1
    | exited c =>
      simp only [send_prompt, if_neg hm, hw]
      exact injectSafe_of_noInject _ _ htr1
    | done k =>
      have hlp : lastPoll tr1 none = some BState.INACTIVE := by
        have h := wait_inactive_done_lastPoll env fuel1 0 k (by rw [hw]) none
        rwa [hw] at h
      cases he : env.editBoxFound with
      | false =>
        simp only [send_prompt, if_neg hm, hw, he, Bool.false_eq_true, if_false,
          List.append_assoc]
        refine injectSafe_of_append _ _ _ (injectSafe_of_noInject _ _ htr1) ?_
        rw [hlp]
        exact injectSafe_of_noInject _ _ (by decide)
      | true =>
        rcases hw2 : wait_inactive env k fuel2 with ⟨tr2, r2⟩
        have htr2 : ∀ e ∈ tr2, isInject e = false := by
          have h := wait_inactive_noInject env fuel2 k
          rwa [hw2] at h
        have hinj : injectSafe
            [Event.findWindows, Event.editLookup true, Event.setText message,
             Event.sleep 1, Event.typeKeys "{ENTER}", Event.sleep 2,
             Event.findWindows] (some BState.INACTIVE) = true := rfl
        have hinjlp : lastPoll
            [Event.findWindows, Event.editLookup true, Event.setText message,
             Event.sleep 1, Event.typeKeys "{ENTER}", Event.sleep 2,
             Event.findWindows] (some BState.INACTIVE) =
            some BState.INACTIVE := rfl
        cases r2 with
        | outOfFuel =>
          simp only [send_prompt, if_neg hm, hw, he, if_true, hw2,
            List.append_assoc]
          refine injectSafe_of_append _ _ _ (injectSafe_of_noInject _ _ htr1) ?_
          rw [hlp]
          refine injectSafe_of_append _ _ _ (by decide) ?_
          rw [show lastPoll close_dialogs (some BState.INACTIVE) =
            some BState.INACTIVE from rfl]
          refine injectSafe_of_append _ _ _ hinj ?_
          rw [hinjlp]
          exact injectSafe_of_noInject _ _ htr2
        | exited c =>
          simp only [send_prompt, if_neg hm, hw, he, if_true, hw2,
            List.append_assoc]
          refine injectSafe_of_append _ _ _ (injectSafe_of_noInject _ _ htr1) ?_
          rw [hlp]
          refine injectSafe_of_append _ _ _ (by decide) ?_
          rw [show lastPoll close_dialogs (some BState.INACTIVE) =
            some BState.INACTIVE from rfl]
          refine injectSafe_of_append _ _ _ hinj ?_
          rw [hinjlp]
          exact injectSafe_of_noInject _ _ htr2
        | done k2 =>
          simp only [send_prompt, if_neg hm, hw, he, if_true, hw2,
            List.append_assoc]
          refine injectSafe_of_append _ _ _ (injectSafe_of_noInject _ _ htr1) ?_
          rw [hlp]
          refine injectSafe_of_append _ _ _ (by decide) ?_
          rw [show lastPoll close_dialogs (some BState.INACTIVE) =
            some BState.INACTIVE from rfl]
          refine injectSafe_of_append _ _ _ hinj ?_
          rw [hinjlp]
          refine injectSafe_of_append _ _ _ (injectSafe_of_noInject _ _ htr2) ?_
          exact injectSafe_of_noInject _ _ (by decide)

/-- Counterexample to claim C2 as stated: on the empty prompt the run does
raise the validation error, but only after `run` has already performed
window acquisition and other UI operations (`find_windows` on line 258 and
the whole of `new_thread` on line 263 precede the empty-prompt check of
`send_prompt`); the events before the rejection — the whole trace except the
final keep-awake release — contain four `find_windows` calls. -/
theorem c2_counterexample :
    (run envE "" false 1 1).2 = RunRes.raisedValueError ∧
    (send_prompt envE "" 1 1).1 = [] ∧
    (run envE "" false 1 1).1 =
      [Event.setKeepAwake true, Event.loadConfig, Event.parseArgs,
       Event.findWindows, Event.setFocus, Event.typeKeys "^T", Event.sleep 1,
       Event.findWindows, Event.clickButton "Continue", Event.findWindows,
       Event.clickButton "Keep All", Event.findWindows,
       Event.setKeepAwake false] ∧
    0 < ((run envE "" false 1 1).1.dropLast.countP isFindWindows) := by
  refine ⟨rfl, rfl, rfl, ?_⟩
  decide

/-- Claim C2 as amended: the empty-prompt validation failure happens before
any UI interaction of the submission step itself — `send_prompt` with the
empty prompt raises the `ValueError` with an empty event trace, in
particular zero window acquisitions, for every environment and fuel. -/
theorem c2_empty_prompt_rejected_before_ui (env : Env) (fuel1 fuel2 : Nat) :
    send_prompt env "" fuel1 fuel2 = ([], SPRes.valueError) ∧
    ((send_prompt env "" fuel1 fuel2).1.countP isFindWindows) = 0 := by
  constructor <;> rfl

/-- Counterexample to claim C3 as stated: a run in which the edit control is
never found reports the submission failure (diagnostic printed, `False`
returned, a single lookup attempt), yet `run` wraps it as
`(True, False)`, `__main__` prints `False`, and the process exits 0 — not
non-zero. -/
theorem c3_counterexample :
    (send_prompt envF "hi" 1 1).2 = SPRes.ret (PyVal.bool false) ∧
    Event.printErr "unable to find prompt box" ∈ (send_prompt envF "hi" 1 1).1 ∧
    ((send_prompt envF "hi" 1 1).1.countP isEditLookupEv) = 1 ∧
    (run envF "hi" false 1 1).2 = RunRes.ret true (PyVal.bool false) ∧
    processExitCode (run envF "hi" false 1 1).2 = some 0 ∧
    mainStdout (run envF "hi" false 1 1).2 = [PyVal.bool false] := by
  refine ⟨rfl, ?_, ?_, rfl, rfl, rfl⟩ <;> decide

/-- Claim C3 as amended: if the edit control cannot be located during the
submission step, the protocol prints a diagnostic and reports failure
without retrying (exactly one lookup attempt, returning `False`); however
`run` returns this as a success-flagged result, so the process exits with
status 0 rather than non-zero. -/
theorem c3_edit_failure_no_retry_exit_zero (env : Env) (message : String)
    (fuel1 fuel2 k : Nat) (hm : message ≠ "")
    (he : env.editBoxFound = false)
    (hw : (wait_inactive env 0 fuel1).2 = WaitRes.done k) :
    (send_prompt env message fuel1 fuel2).2 = SPRes.ret (PyVal.bool false) ∧
    Event.printErr "unable to find prompt box" ∈
      (send_prompt env message fuel1 fuel2).1 ∧
    ((send_prompt env message fuel1 fuel2).1.countP isEditLookupEv) = 1 ∧
    (run env message false fuel1 fuel2).2 = RunRes.ret true (PyVal.bool false) ∧
    processExitCode (run env message false fuel1 fuel2).2 = some 0 := by
  rcases hw1 : wait_inactive env 0 fuel1 with ⟨tr1, r1⟩
  rw [hw1] at hw
  cases hw
  have htr1 : (tr1.countP isEditLookupEv) = 0 := by
    refine List.countP_eq_zero.mpr fun e hmem => ?_
    have h := wait_inactive_noEditLookup env fuel1 0 e (by rw [hw1]; exact hmem)
    simp [h]
  have hsp : send_prompt env message fuel1 fuel2 =
      (tr1 ++ close_dialogs ++
        [Event.findWindows, Event.editLookup false,
         Event.printErr "unable to find prompt box"],
       SPRes.ret (PyVal.bool false)) := by
    simp only [send_prompt, if_neg hm, hw1, he, Bool.false_eq_true, if_false]
  refine ⟨by rw [hsp], ?_, ?_, ?_, ?_⟩
  · rw [hsp]
    simp
  · rw [hsp]
    simp only [List.countP_append, htr1]
    decide
  · simp only [run, validate_arguments, Bool.not_true, Bool.false_eq_true,
      if_false, hsp]
  · simp only [run, validate_arguments, Bool.not_true, Bool.false_eq_true,
      if_false, hsp, processExitCode]

/-- Witness for the amended C3 at a concrete environment whose edit-control
lookup fails. -/
theorem c3_witness :
    ("hi" : String) ≠ "" ∧ envF.editBoxFound = false ∧
    (wait_inactive envF 0 1).2 = WaitRes.done 1 ∧
    ((send_prompt envF "hi" 1 1).2 = SPRes.ret (PyVal.bool false) ∧
     Event.printErr "unable to find prompt box" ∈ (send_prompt envF "hi" 1 1).1 ∧
     ((send_prompt envF "hi" 1 1).1.countP isEditLookupEv) = 1 ∧
     (run envF "hi" false 1 1).2 = RunRes.ret true (PyVal.bool false) ∧
     processExitCode (run envF "hi" false 1 1).2 = some 0) :=
  ⟨by decide, rfl, rfl,
   c3_edit_failure_no_retry_exit_zero envF "hi" 1 1 1 (by decide) rfl rfl⟩

/-- Claim C8: when no descendant control with the 56x56 geometry exists, the
run terminates via the fatal discovery failure — diagnostic printed,
`exit(1)`, process exit status 1 — and the polling loop is never entered:
no classification reading is ever recorded. -/
theorem c8_discovery_failure_exits (env : Env) (message : String)
    (fuel1 fuel2 : Nat) (hm : message ≠ "") (hb : env.buttonFound 0 = false)
    (hf : 0 < fuel1) :
    (run env message false fuel1 fuel2).2 = RunRes.exited 1 ∧
    Event.printErr "unable to find submit button" ∈
      (run env message false fuel1 fuel2).1 ∧
    ((run env message false fuel1 fuel2).1.countP isPollEv) = 0 ∧
    processExitCode (run env message false fuel1 fuel2).2 = some 1 := by
  obtain ⟨n, rfl⟩ : ∃ n, fuel1 = n + 1 := ⟨fuel1 - 1, by omega⟩
  have hw : wait_inactive env 0 (n + 1) =
      ([Event.findWindows, Event.findButton false,
        Event.printErr "unable to find submit button"], WaitRes.exited 1) := by
    simp [wait_inactive, get_bezi_state, hb]
  have hr : run env message false (n + 1) fuel2 =
      ([Event.setKeepAwake true, Event.loadConfig, Event.parseArgs,
        Event.findWindows, Event.setFocus, Event.typeKeys "^T", Event.sleep 1,
        Event.findWindows, Event.clickButton "Continue", Event.findWindows,
        Event.clickButton "Keep All", Event.findWindows, Event.findWindows,
        Event.findButton false,
        Event.printErr "unable to find submit button",
        Event.setKeepAwake false], RunRes.exited 1) := by
    simp [run, send_prompt, if_neg hm, hw, validate_arguments,
      new_thread_events, close_dialogs]
  rw [hr]
  refine ⟨rfl, by decide, by decide, rfl⟩

/-- Witness for C8 at a concrete environment without the 56x56 control. -/
theorem c8_witness :
    ("hi" : String) ≠ "" ∧ envG.buttonFound 0 = false ∧ 0 < 1 ∧
    ((run envG "hi" false 1 1).2 = RunRes.exited 1 ∧
     processExitCode (run envG "hi" false 1 1).2 = some 1) :=
  ⟨by decide, rfl, Nat.one_pos,
   (c8_discovery_failure_exits envG "hi" 1 1 (by decide) rfl Nat.one_pos).1,
   (c8_discovery_failure_exits envG "hi" 1 1 (by decide) rfl Nat.one_pos).2.2.2⟩

/-- Claim C9: on every terminating execution of `run` — normal return, early
return, propagated exception or `exit(1)` — the very first event acquires
the sleep-inhibition flag and the very last event releases it, so no
terminating run ends with the flag held. -/
theorem c9_keep_awake_released (env : Env) (message : String) (init : Bool)
    (fuel1 fuel2 : Nat)
    (h : (run env message init fuel1 fuel2).2 ≠ RunRes.outOfFuel) :
    (run env message init fuel1 fuel2).1.head? =
      some (Event.setKeepAwake true) ∧
    (run env message init fuel1 fuel2).1.getLast? =
      some (Event.setKeepAwake false) := by
  cases init with
  | true => exact ⟨rfl, rfl⟩
  | false =>
    rcases hsp : send_prompt env message fuel1 fuel2 with ⟨tr, r⟩
    cases r with
    | outOfFuel =>
      exact absurd (by simp [run, validate_arguments, hsp]) h
    | valueError =>
      simp only [run, validate_arguments, Bool.not_true, Bool.false_eq_true,
        if_false, hsp]
      exact ⟨rfl, getLast_eq_of_append _ _ _ rfl⟩
    | exited c =>
      simp only [run, validate_arguments, Bool.not_true, Bool.false_eq_true,
        if_false, hsp]
      exact ⟨rfl, getLast_eq_of_append _ _ _ rfl⟩
    | ret v =>
      simp only [run, validate_arguments, Bool.not_true, Bool.false_eq_true,
        if_false, hsp]
      exact ⟨rfl, getLast_eq_of_append _ _ _ rfl⟩

/-- Witness for C9 on a terminating run (an initialization run). -/
theorem c9_witness :
    (run envE "x" true 1 1).2 ≠ RunRes.outOfFuel ∧
    ((run envE "x" true 1 1).1.head? = some (Event.setKeepAwake true) ∧
     (run envE "x" true 1 1).1.getLast? = some (Event.setKeepAwake false)) :=
  ⟨by decide, c9_keep_awake_released envE "x" true 1 1 (by decide)⟩

end BeziBridge
